import Mathlib

/-!
Verification development for the sense-cli agent runtime.

This file gives a shallow embedding, in Lean 4, of the core of the
repository (the streaming tag parser `XMLStreamFilter`, the agent kernel
`AgentKernel`, the `Session` store and the `MCPServerManager` tool gateway)
and proves or refutes the behavioural claims of the specification against it.

Modelling conventions:
* Python strings are `String` (or `List Char` where the source iterates
  character by character); Python truthiness of a string is `s ≠ ""`.
* `json.loads` is a standard-library dependency, not repository code; it is
  abstracted as a parameter `loads : String → Option JValue` (`none` models a
  raised `json.JSONDecodeError`).  JSON numbers are restricted to integers.
* External I/O (the LLM stream, tool providers, the Redis bus, wall-clock
  time, the role manager) is abstracted into oracle parameters; disk I/O for
  the per-session file is modelled as a reliable structured store, since
  `json.dumps`/`json.load` round-trips JSON-native dictionaries.
* Python exceptions are modelled with `Except`; the specific errors the
  claims exercise (`IndexError`, `TypeError`, `ValueError`) are the
  constructors of `PyErr`.
-/

namespace StockCli

/-- A chat message dictionary `{"role": ..., "content": ...}` as used across
`session.py` and `kernel.py`.  Extra dictionary keys are never inspected by
the modelled code and are dropped from the model. -/
structure Message where
  role : String
  content : String
deriving DecidableEq

/-- Python exceptions that the modelled control flow can raise. -/
inductive PyErr where
  | indexError
  | typeError
  | valueError
deriving DecidableEq

/-- Equality of modelled raised-or-returned outcomes is decidable. -/
instance {ε α : Type} [DecidableEq ε] [DecidableEq α] : DecidableEq (Except ε α) := fun a b =>
  match a, b with
  | .ok x, .ok y => if h : x = y then .isTrue (by rw [h]) else .isFalse (by simp [h])
  | .error x, .error y => if h : x = y then .isTrue (by rw [h]) else .isFalse (by simp [h])
  | .ok _, .error _ => .isFalse (by simp)
  | .error _, .ok _ => .isFalse (by simp)

/-- `str(e)` for the exceptions above, as CPython prints them at the sites
modelled here (unpacking a 7-element list into 2 names, unpacking `None`,
`[].split()[0]`). -/
def pyErrMsg : PyErr → String
  | .indexError => "list index out of range"
  | .typeError => "cannot unpack non-iterable NoneType object"
  | .valueError => "too many values to unpack (expected 2)"

/-- JSON values as produced by `json.loads` (numbers restricted to `Int`). -/
inductive JValue where
  | null
  | bool (b : Bool)
  | num (n : Int)
  | str (s : String)
  | arr (elems : List JValue)
  | obj (fields : List (String × JValue))

/-- Python truthiness of a decoded JSON value. -/
def jTruthy : JValue → Bool
  | .null => false
  | .bool b => b
  | .num n => n ≠ 0
  | .str s => s ≠ ""
  | .arr l => !l.isEmpty
  | .obj f => !f.isEmpty

/-- One escaped character of a JSON string (the escapes `json.dumps` emits
for the characters appearing in this development). -/
def jsonEscapeChar (c : Char) : String :=
  if c = '"' then "\\\""
  else if c = '\\' then "\\\\"
  else if c = '\n' then "\\n"
  else if c = '\t' then "\\t"
  else if c = '\r' then "\\r"
  else String.singleton c

/-- A double-quoted JSON string literal, as `json.dumps(..., ensure_ascii=False)`
emits it. -/
def jsonQuote (s : String) : String :=
  "\"" ++ String.join (s.data.map jsonEscapeChar) ++ "\""

mutual

/-- `json.dumps(v, ensure_ascii=False)` with CPython's default separators
`", "` and `": "`. -/
def dumpJ : JValue → String
  | .null => "null"
  | .bool true => "true"
  | .bool false => "false"
  | .num n => toString n
  | .str s => jsonQuote s
  | .arr l => "[" ++ dumpJList l ++ "]"
  | .obj f => "\x7b" ++ dumpJFields f ++ "\x7d"

/-- Comma-separated serialization of a JSON array's elements. -/
def dumpJList : List JValue → String
  | [] => ""
  | [v] => dumpJ v
  | v :: vs => dumpJ v ++ ", " ++ dumpJList vs

/-- Comma-separated serialization of a JSON object's fields. -/
def dumpJFields : List (String × JValue) → String
  | [] => ""
  | [(k, v)] => jsonQuote k ++ ": " ++ dumpJ v
  | (k, v) :: kvs => jsonQuote k ++ ": " ++ dumpJ v ++ ", " ++ dumpJFields kvs

end

mutual

/-- Python `repr` of a decoded JSON value (string escaping inside `repr` is
approximated; the modelled claims only exercise scalar values). -/
def pyRepr : JValue → String
  | .null => "None"
  | .bool true => "True"
  | .bool false => "False"
  | .num n => toString n
  | .str s => "'" ++ s ++ "'"
  | .arr l => "[" ++ pyReprList l ++ "]"
  | .obj f => "\x7b" ++ pyReprFields f ++ "\x7d"

/-- `repr` of a list's elements, comma separated. -/
def pyReprList : List JValue → String
  | [] => ""
  | [v] => pyRepr v
  | v :: vs => pyRepr v ++ ", " ++ pyReprList vs

/-- `repr` of a dict's items, comma separated. -/
def pyReprFields : List (String × JValue) → String
  | [] => ""
  | [(k, v)] => "'" ++ k ++ "': " ++ pyRepr v
  | (k, v) :: kvs => "'" ++ k ++ "': " ++ pyRepr v ++ ", " ++ pyReprFields kvs

end

/-- Python `str` of a decoded JSON value (`str` agrees with `repr` except on
strings themselves). -/
def pyStr (v : JValue) : String :=
  match v with
  | .str s => s
  | _ => pyRepr v

/-- Strip, from both ends of a character list, the characters satisfying `p`
(Python `str.strip` with an explicit character set). -/
def pyStripChars (l : List Char) (p : Char → Bool) : List Char :=
  ((l.dropWhile p).reverse.dropWhile p).reverse

/-- Python `str.strip()` (ASCII whitespace; the sources never strip non-ASCII
whitespace in the modelled claims). -/
def pyStrip (s : String) : String :=
  ⟨pyStripChars s.data Char.isWhitespace⟩

/-! ## `agent/xml_filter.py`: the streaming tag parser -/

/-- `FilterState` from `xml_filter.py` lines 10-17.  Note the source has no
state for a `<communication>` section. -/
inductive FState where
  | OUTSIDE
  | IN_THINKING
  | IN_ACTION
  | IN_FINAL
  | SKIP_TAG
deriving DecidableEq

/-- The mutable fields of `XMLStreamFilter` (`__init__`, lines 23-27).
`buffer` is `self.buffer`: it accumulates every processed character
(`self.buffer += char`, line 42) and is never read or cleared. -/
structure Filt where
  state : FState
  buffer : List Char
  currentTag : List Char
  inTag : Bool
deriving DecidableEq

/-- A freshly constructed `XMLStreamFilter()`. -/
def initFilter : Filt :=
  { state := .OUTSIDE, buffer := [], currentTag := [], inTag := false }

/-- `_extract_tag_name`: strip `<`/`>` from both ends, drop one leading `/`,
then `split()[0].lower()`.  `none` models the `IndexError` that
`tag.split()[0]` raises when no token remains (e.g. for the tag `<>`). -/
def extractTagName (tag : List Char) : Option (List Char) :=
  let t := pyStripChars tag (fun c => c = '<' || c = '>')
  let t := match t with
    | '/' :: rest => rest
    | _ => t
  let tok := (t.dropWhile Char.isWhitespace).takeWhile (fun c => !c.isWhitespace)
  if tok.isEmpty then none else some (tok.map Char.toLower)

/-- `_is_closing_tag`: `tag.strip().startswith("</")` (trailing strip cannot
affect a two-character prefix test). -/
def isClosingTag (tag : List Char) : Bool :=
  (tag.dropWhile Char.isWhitespace).take 2 == ['<', '/']

/-- `_is_opening_tag`: `not tag.strip().startswith("</")`. -/
def isOpeningTag (tag : List Char) : Bool :=
  !isClosingTag tag

/-- The accumulator of one `process_chunk` call: the filter, the
`result` string built so far and the `section_type` local. -/
structure ChunkAcc where
  filt : Filt
  result : List Char
  sectionType : Option String
deriving DecidableEq

/-- The body of the `for char in chunk` loop of `process_chunk`
(lines 41-106), for a single character. -/
def stepChar (a : ChunkAcc) (c : Char) : Except PyErr ChunkAcc :=
  let f := a.filt
  let f := { f with buffer := f.buffer ++ [c] }
  if c = '<' then
    .ok { a with filt := { f with inTag := true, currentTag := ['<'] } }
  else if f.inTag then
    let f := { f with currentTag := f.currentTag ++ [c] }
    if c = '>' then
      let f := { f with inTag := false }
      match extractTagName f.currentTag with
      | none => .error .indexError
      | some tagName =>
        if isOpeningTag f.currentTag then
          if tagName = "thinking".data then
            .ok { filt := { f with state := .IN_THINKING, currentTag := [] },
                  result := a.result, sectionType := some "thinking" }
          else if tagName = "action".data then
            .ok { filt := { f with state := .IN_ACTION, currentTag := [] },
                  result := a.result, sectionType := some "action" }
          else if tagName = "final_answer".data then
            .ok { filt := { f with state := .IN_FINAL, currentTag := [] },
                  result := a.result, sectionType := some "final_answer" }
          else
            .ok { a with filt := { f with currentTag := [] } }
        else
          if (tagName = "thinking".data ∧ f.state = .IN_THINKING)
              ∨ (tagName = "action".data ∧ f.state = .IN_ACTION)
              ∨ (tagName = "final_answer".data ∧ f.state = .IN_FINAL) then
            let s : String :=
              if tagName = "final_answer".data then "final_answer_end"
              else if tagName = "action".data then "action_end"
              else "thinking_end"
            .ok { filt := { f with state := .OUTSIDE, currentTag := [] },
                  result := a.result, sectionType := some s }
          else
            .ok { a with filt := { f with currentTag := [] } }
    else
      .ok { a with filt := f }
  else
    match f.state with
    | .IN_THINKING | .IN_ACTION | .IN_FINAL =>
      let sec : Option String :=
        match a.sectionType with
        | some s => some s
        | none =>
          match f.state with
          | .IN_THINKING => some "thinking"
          | .IN_ACTION => some "action"
          | .IN_FINAL => some "final_answer"
          | _ => none
      .ok { filt := f, result := a.result ++ [c], sectionType := sec }
    | .OUTSIDE => .ok { a with filt := f }
    | .SKIP_TAG => .ok { a with filt := f }

/-- `XMLStreamFilter.process_chunk`: fold the per-character step over the
chunk, starting from an empty `result` and `section_type = None`. -/
def process_chunk (f : Filt) (chunk : List Char) : Except PyErr ChunkAcc :=
  chunk.foldlM stepChar { filt := f, result := [], sectionType := none }

/-! ## `kernel.py` `_stream_llm_call`: turn-level buffering of sections -/

/-- The per-turn locals of `_stream_llm_call` (lines 313-323) together with
the filter it drives and the `_last_*` payload attributes it assigns. -/
structure StreamSt where
  filt : Filt
  collected : List Char
  actionBuf : List Char
  commBuf : List Char
  finalBuf : List Char
  lastAction : String
  lastComm : String
  lastFinal : String
  actionEnd : Bool
  commEnd : Bool
  finalEnd : Bool
  chunksAfterEnd : Nat
deriving DecidableEq

/-- Stream state at the top of `_stream_llm_call` (markers freshly reset). -/
def initStream : StreamSt :=
  { filt := initFilter, collected := [], actionBuf := [], commBuf := [],
    finalBuf := [], lastAction := "", lastComm := "", lastFinal := "",
    actionEnd := false, commEnd := false, finalEnd := false, chunksAfterEnd := 0 }

/-- The body of the `async for chunk in ...` loop of `_stream_llm_call`
(lines 335-384) for one non-empty chunk: collect it, run it through the
filter, and dispatch on the reported section exactly as the source's
`if/elif` chain does.  Display events are not modelled. -/
def streamStep (st : StreamSt) (chunk : List Char) : Except PyErr StreamSt :=
  let st := { st with collected := st.collected ++ chunk }
  match process_chunk st.filt chunk with
  | .error e => .error e
  | .ok acc =>
    let st := { st with filt := acc.filt }
    let filtered := acc.result
    let st :=
      if acc.sectionType = some "action" ∧ filtered ≠ [] then
        { st with actionBuf := st.actionBuf ++ filtered }
      else if acc.sectionType = some "communication" ∧ filtered ≠ [] then
        { st with commBuf := st.commBuf ++ filtered }
      else if acc.sectionType = some "final_answer" ∧ filtered ≠ [] then
        { st with finalBuf := st.finalBuf ++ filtered }
      else if acc.sectionType = some "action_end" then
        { st with lastAction := ⟨pyStripChars st.actionBuf Char.isWhitespace⟩,
                  actionEnd := true }
      else if acc.sectionType = some "communication_end" then
        { st with lastComm := ⟨pyStripChars st.commBuf Char.isWhitespace⟩,
                  commEnd := true }
      else if acc.sectionType = some "final_answer_end" then
        { st with lastFinal := ⟨pyStripChars st.finalBuf Char.isWhitespace⟩,
                  finalEnd := true }
      else st
    .ok (if st.actionEnd ∨ st.commEnd ∨ st.finalEnd then
          { st with chunksAfterEnd := st.chunksAfterEnd + 1 }
        else st)

/-- The chunk loop of `_stream_llm_call`: skip empty chunks (`if not chunk:
continue`), process the rest, and break once three chunks have been seen
after an end tag (`chunks_after_end >= 3`). -/
def streamGo : StreamSt → List (List Char) → Except PyErr StreamSt
  | st, [] => .ok st
  | st, chunk :: rest =>
    if chunk = [] then streamGo st rest
    else
      match streamStep st chunk with
      | .error e => .error e
      | .ok st' =>
        if st'.chunksAfterEnd ≥ 3 then .ok st' else streamGo st' rest

/-- The post-loop fallback of `_stream_llm_call` (lines 387-392): payloads
whose closing tag never arrived are recovered from the buffers. -/
def streamFinish (st : StreamSt) : StreamSt :=
  let st :=
    if st.actionBuf ≠ [] ∧ st.lastAction = "" then
      { st with lastAction := ⟨pyStripChars st.actionBuf Char.isWhitespace⟩ }
    else st
  let st :=
    if st.commBuf ≠ [] ∧ st.lastComm = "" then
      { st with lastComm := ⟨pyStripChars st.commBuf Char.isWhitespace⟩ }
    else st
  if st.finalBuf ≠ [] ∧ st.lastFinal = "" then
    { st with lastFinal := ⟨pyStripChars st.finalBuf Char.isWhitespace⟩ }
  else st

/-- `_stream_llm_call` reduced to its parsing effect: the chunk sequence of
one LLM turn is folded into the final marker state. -/
def streamSim (chunks : List (List Char)) : Except PyErr StreamSt :=
  (streamGo initStream chunks).map streamFinish

/-! ## `kernel.py` payload parsing -/

/-- The backtick character (code fences are stripped before JSON parsing). -/
def backtick : Char := Char.ofNat 96

/-- The regex `re.sub(r"^```(?:json)?\s*", "", s, flags=IGNORECASE)` applied
at the start of the string. -/
def dropFenceLead (l : List Char) : List Char :=
  if l.take 3 = [backtick, backtick, backtick] then
    let r := l.drop 3
    let r := if (r.take 4).map Char.toLower = "json".data then r.drop 4 else r
    r.dropWhile Char.isWhitespace
  else l

/-- The regex `re.sub(r"\s*```$", "", s)`: a trailing code fence and the
whitespace before it are removed. -/
def dropFenceTail (l : List Char) : List Char :=
  let r := l.reverse
  if r.take 3 = [backtick, backtick, backtick] then
    ((r.drop 3).dropWhile Char.isWhitespace).reverse
  else l

/-- `raw.strip()` followed by the two fence-stripping substitutions, shared
by `_parse_action_json` and `_parse_communication_json`. -/
def cleanPayload (raw : String) : String :=
  ⟨dropFenceTail (dropFenceLead (pyStripChars raw.data Char.isWhitespace))⟩

/-- `AgentKernel._parse_action_json` (kernel.py lines 492-505).  Note the
source has no `return` after its `try` block: when the payload parses as
JSON but is not a dict carrying `"tool"` and a dict `"arguments"`, the
function falls off its end and returns Python `None` — modelled as `none`.
`some (name, args)` models a returned tuple. -/
def parse_action_json (loads : String → Option JValue) (raw : String) :
    Option (String × List (String × JValue)) :=
  if raw = "" then some ("", [])
  else
    match loads (cleanPayload raw) with
    | none => some ("", [])
    | some obj =>
      match obj with
      | .obj fields =>
        match fields.lookup "tool" with
        | none => none
        | some toolv =>
          match fields.lookup "arguments" with
          | some (.obj args) => some (pyStr toolv, args)
          | _ => none
      | _ => none

/-- `obj.get(k) or ""` on a decoded JSON object field. -/
def pyOrEmptyStr : Option JValue → JValue
  | none => .str ""
  | some v => if jTruthy v then v else .str ""

/-- `AgentKernel._parse_communication_json` (kernel.py lines 507-522).  This
one does end in `return "", ""`, so it is total. -/
def parse_communication_json (loads : String → Option JValue) (raw : String) :
    String × String :=
  if raw = "" then ("", "")
  else
    match loads (cleanPayload raw) with
    | none => ("", "")
    | some obj =>
      match obj with
      | .obj fields =>
        let target := pyStrip (pyStr (pyOrEmptyStr (fields.lookup "target")))
        let msg := pyStrip (pyStr (pyOrEmptyStr (fields.lookup "message")))
        if target ≠ "" ∧ msg ≠ "" then (target, msg) else ("", "")
      | _ => ("", "")

/-- `str.replace(pat, rep)` (all non-overlapping, leftmost occurrences) on
character lists; `fuel` is an upper bound on the scan length, instantiated
with the length of the subject so the result equals CPython's. -/
def replaceAllAux (pat rep : List Char) : Nat → List Char → List Char
  | 0, s => s
  | _ + 1, [] => []
  | fuel + 1, c :: rest =>
    if pat ≠ [] ∧ (c :: rest).take pat.length = pat then
      rep ++ replaceAllAux pat rep fuel ((c :: rest).drop pat.length)
    else
      c :: replaceAllAux pat rep fuel rest

/-- `s.replace(pat, rep)` for non-empty `pat` (both call sites in
`_extract_fallback_final` guard on a non-empty pattern). -/
def pyReplace (s pat rep : String) : String :=
  ⟨replaceAllAux pat.data rep.data s.data.length s.data⟩

/-! ## `core/session.py`: the Session store

The per-session persistence file `logs/sessions/{id}.json` is modelled as a
structured value: `json.dumps` followed by `json.load` is the identity on the
JSON-native dictionaries the code writes, so no serialization layer is
needed.  A raw (untrusted, loaded) context is a `RawCtx`; the in-memory
context produced by `_default_context`/`set_context` is a `Ctx`. -/

/-- A role configuration (`role_config` dict / `RoleConfig` object): only the
two fields the `Session` code reads.  The empty string models an absent or
falsy entry. -/
structure RoleCfg where
  system_prompt : String
  persona : String
deriving DecidableEq

/-- A context-slot value in a raw (loaded) context dictionary: the key can be
missing, present but not a `{"role", "content"}` dict, or a message. -/
inductive RawSlot where
  | missing
  | bad
  | msg (m : Message)
deriving DecidableEq

/-- An element of a raw `qa_history` list: either not a role/content dict, or
a message. -/
inductive RawQaItem where
  | bad
  | msg (m : Message)
deriving DecidableEq

/-- A raw `qa_history` value: missing key, present but not a list, or a list
of items. -/
inductive RawQa where
  | missing
  | notList
  | items (l : List RawQaItem)
deriving DecidableEq

/-- A raw context dictionary, keyed by the fixed slots of
`_default_context`; keys outside that set are discarded by `set_context` and
therefore not represented. -/
structure RawCtx where
  system_prompt : RawSlot
  tool_policy : RawSlot
  available_tools : RawSlot
  memory_context : RawSlot
  current_time : RawSlot
  user_preferences : RawSlot
  react_prompt : RawSlot
  active_sessions : RawSlot
  token_usage : RawSlot
  qa_history : RawQa
deriving DecidableEq

/-- A normalized in-memory context: every fixed slot holds a message dict
(hence is truthy), plus the ordered `qa_history`. -/
structure Ctx where
  system_prompt : Message
  tool_policy : Message
  available_tools : Message
  memory_context : Message
  current_time : Message
  user_preferences : Message
  react_prompt : Message
  active_sessions : Message
  token_usage : Message
  qa_history : List Message
deriving DecidableEq

/-- The `TOOL_POLICY` prompt constant of session.py. -/
def TOOL_POLICY : String :=
  "Tool use policy:\n" ++
  "1. 在 <action> 中输出严格 JSON: \x7b\"tool\": \"name\", \"arguments\": \x7b...\x7d\x7d (双引号, 无多余文本)。\n" ++
  "2. 每轮至多一个 <action>；如信息足够可直接输出 <final_answer>。\n" ++
  "3. 避免重复调用同一工具+参数；若已有结果请直接利用生成答案。\n" ++
  "4. 通常不应超过 3 次工具调用，尽早给出 <final_answer>。\n" ++
  "5. 工具失败可做一次合理修正；再失败或无必要继续请直接 <final_answer> 解释。\n"

/-- `Session._default_context` (session.py lines 48-69); the two JSON-valued
slots are serialized with the modelled `json.dumps`. -/
def default_context : Ctx :=
  { system_prompt := ⟨"system", ""⟩,
    tool_policy := ⟨"system", TOOL_POLICY⟩,
    available_tools := ⟨"system", ""⟩,
    memory_context := ⟨"system", ""⟩,
    current_time := ⟨"system", ""⟩,
    user_preferences := ⟨"system", dumpJ (.obj
      [("watchlist", .arr []), ("analysis_style", .str "comprehensive"),
       ("risk_tolerance", .str "moderate")])⟩,
    react_prompt := ⟨"system", ""⟩,
    active_sessions := ⟨"system", "[可对话会话列表]\n无其他在线会话"⟩,
    token_usage := ⟨"system", dumpJ (.obj
      [("total_tokens", .num 0), ("prompt_tokens", .num 0),
       ("completion_tokens", .num 0), ("last_updated", .str "")])⟩,
    qa_history := [] }

/-- The qa-history filter used by `set_context` and `build_llm_messages`:
`isinstance(m, dict) and m.get("role") in ("user", "assistant") and
m.get("content")`. -/
def validQaMsg (m : Message) : Bool :=
  (m.role == "user" || m.role == "assistant") && m.content != ""

/-- One slot of `set_context`: keep the raw value only when it is a dict
carrying `"role"` and `"content"`; otherwise fall back to the default. -/
def normSlot (d : Message) : RawSlot → Message
  | .missing => d
  | .bad => d
  | .msg m => m

/-- The `qa_history` branch of `set_context`: keep only well-formed
user/assistant messages with truthy content. -/
def filterRawQa (l : List RawQaItem) : List Message :=
  l.filterMap fun it =>
    match it with
    | .bad => none
    | .msg m => if validQaMsg m then some m else none

/-- `Session.set_context` (session.py lines 83-93). -/
def set_context (raw : RawCtx) : Ctx :=
  let d := default_context
  { system_prompt := normSlot d.system_prompt raw.system_prompt,
    tool_policy := normSlot d.tool_policy raw.tool_policy,
    available_tools := normSlot d.available_tools raw.available_tools,
    memory_context := normSlot d.memory_context raw.memory_context,
    current_time := normSlot d.current_time raw.current_time,
    user_preferences := normSlot d.user_preferences raw.user_preferences,
    react_prompt := normSlot d.react_prompt raw.react_prompt,
    active_sessions := normSlot d.active_sessions raw.active_sessions,
    token_usage := normSlot d.token_usage raw.token_usage,
    qa_history := match raw.qa_history with
      | .items l => filterRawQa l
      | _ => [] }

/-- The saved form of a session file `{"session_id": ..., "context": ...}`
plus the optionally saved role keys.  The context of a file found on disk is
raw. -/
structure RawSavedDoc where
  context : RawCtx
  role_config : Option RoleCfg
  role_name : Option String
deriving DecidableEq

/-- The state of the per-session file on disk. -/
inductive DiskFile where
  | absent
  | corrupt
  | doc (d : RawSavedDoc)
deriving DecidableEq

/-- The state of one `Session` object together with its persistence file. -/
structure SessionSt where
  session_id : String
  ctx : Ctx
  disk : DiskFile
  role_config : Option RoleCfg
  role_name : Option String
deriving DecidableEq

/-- A normalized context re-read from disk: every slot is a well-formed
message dict and every qa entry is a dict. -/
def rawOfCtx (c : Ctx) : RawCtx :=
  { system_prompt := .msg c.system_prompt,
    tool_policy := .msg c.tool_policy,
    available_tools := .msg c.available_tools,
    memory_context := .msg c.memory_context,
    current_time := .msg c.current_time,
    user_preferences := .msg c.user_preferences,
    react_prompt := .msg c.react_prompt,
    active_sessions := .msg c.active_sessions,
    token_usage := .msg c.token_usage,
    qa_history := .items (c.qa_history.map .msg) }

/-- `Session._save_context_to_disk` (session.py lines 230-245): write
`{session_id, context}` plus `role_config` when present and `role_name` when
truthy. -/
def savedRoleName : Option String → Option String
  | some rn => if rn = "" then none else some rn
  | none => none

/-- continuation of `_save_context_to_disk`: the document written. -/
def savedDocOf (s : SessionSt) : RawSavedDoc :=
  { context := rawOfCtx s.ctx,
    role_config := s.role_config,
    role_name := savedRoleName s.role_name }

/-- `_save_context_to_disk` replaces the session file with the current
state. -/
def save_context_to_disk (s : SessionSt) : SessionSt :=
  { s with disk := .doc (savedDocOf s) }

/-- `Session._inject_role_config` (session.py lines 99-111): overwrite the
system prompt when the config carries one, append the persona, and remember
the config.  Only `system_prompt` is touched. -/
def inject_role_config (rc : RoleCfg) (s : SessionSt) : SessionSt :=
  let c := s.ctx
  let c :=
    if rc.system_prompt ≠ "" then
      { c with system_prompt := { c.system_prompt with content := rc.system_prompt } }
    else c
  let c :=
    if rc.persona ≠ "" then
      { c with system_prompt :=
          { c.system_prompt with
            content := c.system_prompt.content ++ "\n\n角色设定: " ++ rc.persona } }
    else c
  { s with ctx := c, role_config := some rc }

/-- `Session._load_role_config` (session.py lines 113-131): the role manager
is external; `roleLookup` abstracts `get_role_manager().get_role`.  A found
role overwrites the system prompt content and is remembered; a missing role
or a raised exception leaves the session unchanged. -/
def load_role_config (roleLookup : String → Option RoleCfg) (rn : String)
    (s : SessionSt) : SessionSt :=
  match roleLookup rn with
  | some rc =>
    { s with
      ctx := { s.ctx with system_prompt :=
        { s.ctx.system_prompt with content := rc.system_prompt } },
      role_config := some rc }
  | none => s

/-- The shared role-injection dispatch: `if role_config:
self._inject_role_config(role_config) elif role_name:
self._load_role_config(role_name)` (used both at the end of `__init__` with
the constructor arguments and at the end of `_load_context_from_disk` with
the restored attributes). -/
def applyRoleDispatch (roleLookup : String → Option RoleCfg)
    (role_config : Option RoleCfg) (role_name : Option String)
    (s : SessionSt) : SessionSt :=
  match role_config with
  | some rc => inject_role_config rc s
  | none =>
    match role_name with
    | some rn => if rn ≠ "" then load_role_config roleLookup rn s else s
    | none => s

/-- The tail of `_load_context_from_disk` (session.py lines 256-267): restore
the saved `role_config`/`role_name` attributes, then re-inject. -/
def restoreRole (roleLookup : String → Option RoleCfg) (d : RawSavedDoc)
    (s : SessionSt) : SessionSt :=
  let s := match d.role_config with
    | some rc => { s with role_config := some rc }
    | none => s
  let s := match d.role_name with
    | some rn => { s with role_name := some rn }
    | none => s
  applyRoleDispatch roleLookup s.role_config s.role_name s

/-- `Session._load_context_from_disk` (session.py lines 247-269): a missing
or corrupt file is swallowed (defaults retained); a structurally valid file
is normalized through `set_context`, then saved role information is restored
and re-injected. -/
def load_context_from_disk (roleLookup : String → Option RoleCfg)
    (s : SessionSt) : SessionSt :=
  match s.disk with
  | .doc d => restoreRole roleLookup d { s with ctx := set_context d.context }
  | _ => s

/-- `Session.__init__` (session.py lines 22-46): defaults, load from disk,
then inject the constructor's role configuration if one was passed. -/
def mkSession (roleLookup : String → Option RoleCfg) (sid : String)
    (disk : DiskFile) (role_config : Option RoleCfg)
    (role_name : Option String) : SessionSt :=
  let s : SessionSt :=
    { session_id := sid, ctx := default_context, disk := disk,
      role_config := none, role_name := role_name }
  applyRoleDispatch roleLookup role_config role_name
    (load_context_from_disk roleLookup s)

/-- `Session.append_qa` (session.py lines 197-202): only user/assistant
messages with truthy content are appended, and the context is saved. -/
def append_qa (s : SessionSt) (m : Message) : SessionSt :=
  if (m.role = "user" ∨ m.role = "assistant") ∧ m.content ≠ "" then
    save_context_to_disk
      { s with ctx := { s.ctx with qa_history := s.ctx.qa_history ++ [m] } }
  else s

/-- `Session.append_event` (session.py lines 204-216): appends a message with
an arbitrary caller-chosen role to `qa_history` (only empty content is
rejected), then saves. -/
def append_event (s : SessionSt) (role content : String) : SessionSt :=
  if content = "" then s
  else
    save_context_to_disk
      { s with ctx :=
          { s.ctx with qa_history := s.ctx.qa_history ++ [⟨role, content⟩] } }

/-- `Session.clear_context` (session.py lines 191-194). -/
def clear_context (s : SessionSt) : SessionSt :=
  save_context_to_disk { s with ctx := default_context }

/-- The fields of `Task` (core/types.py) that drive the kernel loop. -/
structure TaskM where
  description : String
  max_iterations : Nat
  timeout : Int
deriving DecidableEq

/-- `Session.build_llm_messages` (session.py lines 134-184): the seven fixed
slots in source order (each slot of a normalized context is a non-empty dict,
hence truthy), the filtered `qa_history`, the task description when truthy,
then the scratchpad.  The return value is this single flat list. -/
def build_llm_messages (c : Ctx) (task : TaskM) (scratchpad : List Message) :
    List Message :=
  [c.system_prompt, c.tool_policy, c.available_tools, c.memory_context,
   c.current_time, c.active_sessions, c.react_prompt]
    ++ c.qa_history.filter validQaMsg
    ++ (if task.description ≠ "" then [(⟨"user", task.description⟩ : Message)] else [])
    ++ scratchpad

/-! ## `kernel.py`: dispatch and the ReAct loop

The LLM stream, the tool gateway, the Redis bus and the prompt builder are
external effects; they enter the model as oracles.  Wall-clock time is
abstracted: computation is instantaneous, so the elapsed time at each
`time.time() - total_start > total_timeout` check is `0`. -/

/-- `AgentKernel._extract_fallback_final` (kernel.py lines 524-536). -/
def extract_fallback_final (lastAction lastComm response : String) : String :=
  let r := if lastAction ≠ "" then pyReplace response lastAction "" else response
  let r := if lastComm ≠ "" then pyReplace r lastComm "" else r
  let r := pyStrip r
  if r = "" then "任务完成" else r

/-- The corrective instruction appended on the fallback path
(kernel.py lines 292-297). -/
def CORRECTIVE : String :=
  "上一次输出未提供 <action>、<communication> 或 <final_answer>。请严格按照系统提示中的XML输出格式，仅输出 <thinking> + (<action> / <communication> 或 <final_answer>)，不要输出其它说明文字。"

/-- The assistant notice appended to qa history after a failed tool call
(kernel.py lines 453-456). -/
def FAIL_NOTICE : String :=
  "工具调用失败。请只在确有必要时再尝试一次修正，否则直接输出 <final_answer> 总结。"

/-- `AgentKernel._run_tool_and_record` (kernel.py lines 401-457).  `toolO`
abstracts `MCPServerManager.call_tool` composed with `_format_observation`
(`.ok obs` is the formatted observation, `.error e` is `str(e)` of a raised
exception).  Returns the updated session and scratchpad. -/
def run_tool_and_record
    (toolO : String → List (String × JValue) → Except String String)
    (sess : SessionSt) (scratch : List Message)
    (name : String) (args : List (String × JValue)) :
    SessionSt × List Message :=
  let call_json := dumpJ (.obj [("tool", .str name), ("arguments", .obj args)])
  let sess := append_qa sess ⟨"assistant", call_json⟩
  match toolO name args with
  | .ok obs =>
    (sess, scratch ++ [(⟨"assistant", "Action: " ++ call_json⟩ : Message),
                       ⟨"user", "Observation: " ++ obs⟩])
  | .error e =>
    let err := "ERROR: " ++ e
    let scratch := scratch ++ [(⟨"assistant", "Action: " ++ call_json⟩ : Message),
                               ⟨"user", "Observation: " ++ err⟩]
    (append_qa sess ⟨"assistant", FAIL_NOTICE⟩, scratch)

/-- The observable outcome of one `_handle_react_iteration_case` call: the
returned value (`some` = the loop returns it, `none` = continue), the updated
session and scratchpad, and the tool-call and publish attempts made. -/
structure DispatchOut where
  ret : Option String
  sess : SessionSt
  scratch : List Message
  toolCalls : List (String × List (String × JValue))
  publishes : List (String × String)

/-- `AgentKernel._handle_react_iteration_case` (kernel.py lines 230-300).
The very first statement unpacks `self._parse_action_json(...)` into two
names; when that call returns `None` (see `parse_action_json`) CPython
raises `TypeError` before any case is examined — modelled by `.error
.typeError`.  `pubO` abstracts `RedisBus.publish_message`. -/
def handle_react_iteration_case (loads : String → Option JValue)
    (toolO : String → List (String × JValue) → Except String String)
    (pubO : String → String → Except String Nat)
    (sess : SessionSt) (scratch : List Message)
    (lastAction lastComm lastFinal response : String) :
    Except PyErr DispatchOut :=
  match parse_action_json loads lastAction with
  | none => .error .typeError
  | some (action_name, action_args) =>
    let tm := parse_communication_json loads lastComm
    let comm_target := tm.1
    let comm_message := tm.2
    if lastFinal ≠ "" then
      let final_answer := pyStrip lastFinal
      let sess := append_qa sess ⟨"assistant", final_answer⟩
      .ok ⟨some final_answer, sess, scratch, [], []⟩
    else if action_name ≠ "" ∧ lastAction ≠ "" then
      let p := run_tool_and_record toolO sess scratch action_name action_args
      .ok ⟨none, p.1, p.2, [(action_name, action_args)], []⟩
    else if comm_target ≠ "" ∧ lastComm ≠ "" then
      let comm_json := dumpJ (.obj [("communication",
        .obj [("target", .str comm_target), ("message", .str comm_message)])])
      let sess := append_qa sess ⟨"assistant", comm_json⟩
      let observation :=
        match pubO comm_target comm_message with
        | .ok subs =>
          "Communication sent to \x27" ++ comm_target ++ "\x27. subscribers=" ++ toString subs
        | .error e => "ERROR: communication failed: " ++ e
      let scratch := scratch ++
        [(⟨"assistant", "Communication: " ++ comm_json⟩ : Message),
         ⟨"user", "Observation: " ++ observation⟩]
      .ok ⟨none, sess, scratch, [], [(comm_target, comm_message)]⟩
    else if lastFinal = "" ∧ action_name = "" ∧ comm_target = "" then
      let fallback_raw := extract_fallback_final lastAction lastComm response
      let scratch := scratch ++
        [(⟨"assistant", fallback_raw⟩ : Message), ⟨"user", CORRECTIVE⟩]
      .ok ⟨none, sess, scratch, [], []⟩
    else
      .ok ⟨none, sess, scratch, [], []⟩

/-- The marker state one `_stream_llm_call` leaves behind for the dispatch
(`_last_action_payload`, `_last_communication_payload`, `_last_final_answer`)
plus the collected raw response text. -/
structure TurnOut where
  lastAction : String
  lastComm : String
  lastFinal : String
  response : String

/-- The external effects of one kernel run, indexed by iteration number. -/
structure KernelOracles where
  loads : String → Option JValue
  toolO : Nat → String → List (String × JValue) → Except String String
  pubO : Nat → String → String → Except String Nat
  turnO : Nat → TurnOut
  activeO : Nat → Option (List String)

/-- The sentinel returned when the loop exhausts its iterations
(kernel.py line 228). -/
def BUDGET_SENTINEL : String := "任务结束: 达到迭代/时间限制。"

/-- The per-iteration `active_sessions` injection (kernel.py lines 190-203):
filter out the own session id, format the bulleted list, store it as a
system message in the context.  A failed bus query (oracle `none`) skips the
injection. -/
def inject_active_sessions (sids : List String) (sess : SessionSt) : SessionSt :=
  let others := sids.filter (fun x => x ≠ sess.session_id)
  let bullet :=
    if others ≠ [] then String.intercalate "\n" (others.map (fun x => "- " ++ x))
    else "无其他在线会话"
  { sess with ctx := { sess.ctx with active_sessions :=
      ⟨"system", "[可对话会话列表]\n" ++ bullet ++ "\n请优先参考本列表与其他会话通信。"⟩ } }

/-- The `while iteration < max_iter` loop of `_execute_react_loop`
(kernel.py lines 178-228), with `fuel = max_iter - iteration`.  Each pass:
timeout check (elapsed time is abstracted as `0`), `active_sessions`
injection, then `messages, token_info = self.session.build_llm_messages(...)`
— a 2-tuple unpacking of the returned flat list, raising `ValueError` unless
the list has exactly two elements — and only then the streamed turn and its
dispatch. -/
def react_loop_go (o : KernelOracles) (task : TaskM) (totalTimeout : Int) :
    Nat → Nat → SessionSt → List Message → Except PyErr String
  | 0, _, _, _ => .ok BUDGET_SENTINEL
  | fuel + 1, iter, sess, scratch =>
    if (0 : Int) > totalTimeout then .ok BUDGET_SENTINEL
    else
      let iter' := iter + 1
      let sess := match o.activeO iter' with
        | some sids => inject_active_sessions sids sess
        | none => sess
      let messages := build_llm_messages sess.ctx task scratch
      if messages.length = 2 then
        let turn := o.turnO iter'
        match handle_react_iteration_case o.loads (o.toolO iter') (o.pubO iter')
            sess scratch turn.lastAction turn.lastComm turn.lastFinal turn.response with
        | .error e => .error e
        | .ok d =>
          match d.ret with
          | some r => .ok r
          | none => react_loop_go o task totalTimeout fuel iter' d.sess d.scratch
      else .error .valueError

/-- Task status values from `core/types.py`. -/
inductive TaskStatusM where
  | pending
  | running
  | completed
  | failed
  | cancelled
deriving DecidableEq

/-- The observable outcome of `AgentKernel.execute_task`: the task's final
status and fields, and the returned value or re-raised exception. -/
structure ExecOut where
  status : TaskStatusM
  result : Option String
  error_message : Option String
  outcome : Except PyErr String
deriving DecidableEq

/-- `AgentKernel.execute_task` (kernel.py lines 69-153): compute the total
timeout (`min(task.timeout or config.timeout, config.timeout)`), reset the
scratchpad, build the ReAct prompt into the context (`promptO`; `none`
models a failed build, which is swallowed), run the loop, and set the task
status from its outcome, re-raising any exception. -/
def execute_task (o : KernelOracles) (promptO : Option String)
    (cfgTimeout : Int) (sess : SessionSt) (task : TaskM) : ExecOut :=
  let totalTimeout := min (if task.timeout = 0 then cfgTimeout else task.timeout) cfgTimeout
  let sess := match promptO with
    | some p => { sess with ctx := { sess.ctx with react_prompt := ⟨"system", p⟩ } }
    | none => sess
  match react_loop_go o task totalTimeout task.max_iterations 0 sess [] with
  | .ok r => ⟨.completed, some r, none, .ok r⟩
  | .error e => ⟨.failed, none, some (pyErrMsg e), .error e⟩

/-! ## `tools/mcp_server_manager.py`: the tool gateway -/

/-- `CachedTool` (mcp_server_manager.py lines 58-69); the JSON input schema
is not consulted by the call path and is omitted. -/
structure CachedToolM where
  name : String
  description : String
  server_name : String
deriving DecidableEq

/-- The fields of `MCPServerManager` that drive `call_tool`: connected
provider sessions (by name; the `ClientSession` objects are abstracted), the
name-keyed tool cache, and the shared cache timestamp/TTL. -/
structure MCPState where
  sessions : List String
  tool_cache : List (String × CachedToolM)
  cache_timestamp : Option Int
  cache_ttl : Int
deriving DecidableEq

/-- `MCPServerManager._is_cache_valid` (lines 264-271).  Note the source's
`if not self._cache_timestamp` also treats a timestamp of `0` as absent. -/
def is_cache_valid (now : Int) (st : MCPState) : Bool :=
  match st.cache_timestamp with
  | none => false
  | some t => if t = 0 then false else now - t < st.cache_ttl

/-- The `RuntimeError`s (and the re-raised provider error) that `call_tool`
can raise. -/
inductive MCPErr where
  | noSessions
  | toolNotFound (name : String)
  | providerUnavailable (server : String)
  | providerError (msg : String)
deriving DecidableEq

/-- The observable outcome of a `call_tool` invocation: its result or raised
error, how many underlying `session.call_tool` attempts were made, and how
many `asyncio.sleep(delay)` calls happened between attempts. -/
structure RetryOut where
  result : Except MCPErr String
  attempts : Nat
  sleeps : Nat
deriving DecidableEq

/-- The `for attempt in range(retries)` loop of `_execute_tool_with_retry`
(lines 367-381): each failing attempt stores the error and, when it is not
the last one, sleeps once; exhaustion raises the stored last error (or a
fresh `RuntimeError` when `retries == 0`).  `callO` abstracts
`session.call_tool` per attempt; its `.ok` value is the (opaque) provider
result. -/
def retryGo (callO : Nat → Except String String) (retries : Nat) :
    Nat → Nat → Option String → Nat → RetryOut
  | 0, attempt, lastErr, sleeps =>
    ⟨.error (.providerError (lastErr.getD "工具执行失败")), attempt, sleeps⟩
  | fuel + 1, attempt, _lastErr, sleeps =>
    match callO attempt with
    | .ok r => ⟨.ok r, attempt + 1, sleeps⟩
    | .error e =>
      retryGo callO retries fuel (attempt + 1) (some e)
        (if attempt < retries - 1 then sleeps + 1 else sleeps)

/-- `MCPServerManager._execute_tool_with_retry` (lines 356-381), with the
loop's remaining-iteration count (`retries - attempt`) made explicit as
fuel: the first argument pair starts at `(retries, 0)`. -/
def execute_tool_with_retry (callO : Nat → Except String String)
    (retries : Nat) : RetryOut :=
  retryGo callO retries retries 0 none 0

/-- `_refresh_tool_cache` (lines 273-286): provider discovery is external;
`refreshO` is the merged name→tool map it would produce.  The shared
timestamp is set to `now`. -/
def refresh_tool_cache (now : Int) (refreshO : List (String × CachedToolM))
    (st : MCPState) : MCPState :=
  { st with tool_cache := refreshO, cache_timestamp := some now }

/-- `MCPServerManager.call_tool` (lines 327-354): no initialized sessions →
`RuntimeError`; stale cache → refresh; unknown tool → `RuntimeError` (tool
not found) with no provider contact; owning (or explicitly named) server not
connected → `RuntimeError` (unavailable) with no provider contact; otherwise
the retry loop.  The JSON `arguments` flow opaquely into `callO` and are not
repeated here. -/
def call_tool (now : Int) (refreshO : List (String × CachedToolM))
    (callO : Nat → Except String String) (st : MCPState)
    (tool_name : String) (server_name : Option String) (retries : Nat) :
    RetryOut :=
  if st.sessions = [] then ⟨.error .noSessions, 0, 0⟩
  else
    let st := if is_cache_valid now st then st else refresh_tool_cache now refreshO st
    match st.tool_cache.lookup tool_name with
    | none => ⟨.error (.toolNotFound tool_name), 0, 0⟩
    | some ct =>
      let target := match server_name with
        | some sn => if sn ≠ "" then sn else ct.server_name
        | none => ct.server_name
      if target ∈ st.sessions then execute_tool_with_retry callO retries
      else ⟨.error (.providerUnavailable target), 0, 0⟩

/-! ## Auxiliary definitions for the claims -/

/-- The mutating `Session` operations quantified over by the history
invariant (`append_event` is treated separately, since it is the operation
that violates the invariant). -/
inductive SessOp where
  | setCtx (raw : RawCtx)
  | clearCtx
  | appendQa (m : Message)

/-- Apply one `Session` operation. -/
def applySessOp (s : SessionSt) : SessOp → SessionSt
  | .setCtx raw => { s with ctx := set_context raw }
  | .clearCtx => clear_context s
  | .appendQa m => append_qa s m

/-- Apply a sequence of `Session` operations. -/
def applySessOps (s : SessionSt) (ops : List SessOp) : SessionSt :=
  ops.foldl applySessOp s

/-- The qa-history role invariant of the specification. -/
def qaRolesOK (c : Ctx) : Prop :=
  ∀ m ∈ c.qa_history, m.role = "user" ∨ m.role = "assistant"

/-- The session file is in sync with the in-memory state, i.e. the state a
`_save_context_to_disk` leaves behind. -/
def diskSynced (s : SessionSt) : Prop :=
  s.disk = .doc (savedDocOf s)

/-- The observation string the action branch records for a tool outcome
(success: the formatted observation; failure: `"ERROR: " + str(e)`,
kernel.py lines 413 and 433). -/
def obsOf : Except String String → String
  | .ok o => o
  | .error e => "ERROR: " ++ e

/-- A session constructed fresh (no session file, no role). -/
def sessC : SessionSt := mkSession (fun _ => none) "A" .absent none none

/-- A `json.loads` oracle decoding `"[1, 2]"` to a JSON list — a payload
that parses as JSON but is not an action object. -/
def loadsC1 : String → Option JValue := fun s =>
  if s = "[1, 2]" then some (.arr [.num 1, .num 2]) else none

/-- The action payload `{"tool": "t", "arguments": {"x": 1}}` (with the
spacing `json.dumps` would use). -/
def actRaw : String := "\x7b\"tool\": \"t\", \"arguments\": \x7b\"x\": 1\x7d\x7d"

/-- A `json.loads` oracle decoding `actRaw` to the corresponding object. -/
def loadsAct : String → Option JValue := fun s =>
  if s = actRaw then
    some (.obj [("tool", .str "t"), ("arguments", .obj [("x", .num 1)])])
  else none

/-- A tool oracle that always succeeds with observation `"r"`. -/
def toolOk : String → List (String × JValue) → Except String String :=
  fun _ _ => .ok "r"

/-- A publish oracle that always reports one subscriber. -/
def pubOk : String → String → Except String Nat := fun _ _ => .ok 1

/-- Kernel oracles for concrete runs: no JSON ever decodes, every turn is
empty, the bus is unavailable. -/
def oraclesC : KernelOracles :=
  { loads := fun _ => none, toolO := fun _ => toolOk, pubO := fun _ => pubOk,
    turnO := fun _ => ⟨"", "", "", ""⟩, activeO := fun _ => none }

/-- A complete `<communication>` turn as a character stream. -/
def commStream : List Char :=
  "<communication>\x7b\"target\": \"B\", \"message\": \"hi\"\x7d</communication>".data

/-- The compact action payload of the specification's chunk-boundary
property. -/
def actPayload : String := "\x7b\"tool\":\"t\",\"arguments\":\x7b\"x\":1\x7d\x7d"

/-- A `json.loads` oracle decoding `actPayload`. -/
def loadsC4 : String → Option JValue := fun s =>
  if s = actPayload then
    some (.obj [("tool", .str "t"), ("arguments", .obj [("x", .num 1)])])
  else none

/-- First half of a split `<thinking>` stream. -/
def thinkA : List Char := "<thinking>he".data

/-- Second half of a split `<thinking>` stream. -/
def thinkB : List Char := "llo</thinking>".data

/-- A gateway state with one connected provider `"srv"` owning one cached
tool `"echo"`, cache refreshed at time 100 with the default TTL 300. -/
def mcpC : MCPState :=
  { sessions := ["srv"], tool_cache := [("echo", ⟨"echo", "d", "srv"⟩)],
    cache_timestamp := some 100, cache_ttl := 300 }

/-- A provider call oracle that fails on every attempt with the attempt
index as message. -/
def failCallO : Nat → Except String String := fun i => .error (toString i)

/-! ## Theorems -/

/-- C1.  The code, not the claim, is wrong: an `<action>` section whose text
parses as JSON but is not `{tool, arguments: object}` (here the list
`[1, 2]`) makes `_parse_action_json` fall off its end and return `None`, so
the tuple unpacking at the top of `_handle_react_iteration_case` raises
`TypeError` instead of reaching the fallback corrective-prompt path; the
exception escapes the loop and `execute_task` marks the task `FAILED`.  This
theorem evaluates the code at the failing input. -/
theorem C1_malformed_action_raises :
    parse_action_json loadsC1 "[1, 2]" = none ∧
    handle_react_iteration_case loadsC1 toolOk pubOk sessC [] "[1, 2]" "" "" "r"
      = .error .typeError ∧
    pyErrMsg .typeError = "cannot unpack non-iterable NoneType object" :=
  ⟨rfl, rfl, rfl⟩

set_option maxRecDepth 8000 in
/-- C3.  The code, not the claim, is wrong: `XMLStreamFilter` has no
communication state at all.  Feeding a complete
`<communication>{"target": "B", "message": "hi"}</communication>` stream to
a fresh filter yields no visible text and no section kind (the filter stays
`OUTSIDE`, only its write-only `buffer` grows), and the turn-level buffering
of `_stream_llm_call` therefore leaves `_last_communication_payload` empty —
the payload is silently dropped and no `communication_end` is ever
reported. -/
theorem C3_communication_not_parsed :
    process_chunk initFilter commStream
      = .ok ⟨⟨.OUTSIDE, commStream, [], false⟩, [], none⟩ ∧
    (streamSim [commStream]).map (fun st => st.lastComm) = .ok "" ∧
    (streamSim [commStream]).map (fun st => st.lastAction) = .ok "" ∧
    (streamSim [commStream]).map (fun st => st.lastFinal) = .ok "" := by
  refine ⟨by decide, by decide, by decide, by decide⟩

/-- C4.  The code, not the claim, is wrong: chunk-boundary invariance fails.
Feeding `<action>{"tool":"t","arguments":{"x":1}}</action>` as one whole
chunk reports the single section kind `"action_end"` for the call that also
carries the payload text, so `_stream_llm_call` never adds that text to its
action buffer and `_last_action_payload` stays empty — `(tool, arguments)`
parse to `("", {})`.  Splitting the same stream before `</action>` instead
yields the full payload and `("t", {"x": 1})`. -/
theorem C4_chunk_boundary_variance :
    (streamSim [("<action>" ++ actPayload ++ "</action>").data]).map
        (fun st => st.lastAction) = .ok "" ∧
    (streamSim [("<action>" ++ actPayload).data, "</action>".data]).map
        (fun st => st.lastAction) = .ok actPayload ∧
    parse_action_json loadsC4 "" = some ("", []) ∧
    parse_action_json loadsC4 actPayload = some ("t", [("x", .num 1)]) ∧
    actPayload ≠ "" :=
  ⟨rfl, rfl, rfl, rfl, by decide⟩

/-- C10.  The code, not the claim, is wrong: `self.buffer += char` runs for
every processed character and `self.buffer` is never cleared (nor read), so
the filter retains the entire input consumed so far — here all 26 characters
of the two chunks — even though the current tag buffer is empty and no
section text is being accumulated.  Retained state is proportional to the
total input length, not bounded by the current tag/section buffer. -/
theorem C10_buffer_retains_all_input :
    (process_chunk initFilter thinkA).map (fun a => a.filt.buffer) = .ok thinkA ∧
    ((process_chunk initFilter thinkA).bind
        (fun a => process_chunk a.filt thinkB)).map
        (fun a => (a.filt.buffer, a.filt.currentTag, a.filt.inTag))
      = .ok (thinkA ++ thinkB, [], false) ∧
    (thinkA ++ thinkB).length = 26 :=
  ⟨rfl, rfl, by decide⟩

/-- The boolean qa filter unfolded to its propositional form. -/
theorem validQaMsg_iff (m : Message) :
    validQaMsg m = true ↔ (m.role = "user" ∨ m.role = "assistant") ∧ m.content ≠ "" := by
  simp [validQaMsg]

/-- Membership in a normalized raw qa list implies the filter predicate. -/
theorem mem_filterRawQa {l : List RawQaItem} {m : Message}
    (hm : m ∈ filterRawQa l) : validQaMsg m = true := by
  unfold filterRawQa at hm
  rcases List.mem_filterMap.mp hm with ⟨it, _, hit⟩
  cases it with
  | bad => simp at hit
  | msg m' =>
    by_cases h : validQaMsg m'
    · simp only [h, if_true] at hit
      cases hit
      exact h
    · simp [h] at hit

/-- `set_context` always produces a qa history of user/assistant messages. -/
theorem qaRolesOK_set_context (raw : RawCtx) : qaRolesOK (set_context raw) := by
  intro m hm
  unfold set_context at hm
  dsimp only at hm
  rcases hraw : raw.qa_history with _ | _ | l <;> rw [hraw] at hm
  · simp at hm
  · simp at hm
  · exact ((validQaMsg_iff m).mp (mem_filterRawQa hm)).1

/-- Role-configuration injection only rewrites the system prompt. -/
theorem inject_role_config_qa (rc : RoleCfg) (s : SessionSt) :
    (inject_role_config rc s).ctx.qa_history = s.ctx.qa_history := by
  unfold inject_role_config
  dsimp only
  split <;> split <;> rfl

/-- Loading a role by name only rewrites the system prompt. -/
theorem load_role_config_qa (rl : String → Option RoleCfg) (rn : String)
    (s : SessionSt) :
    (load_role_config rl rn s).ctx.qa_history = s.ctx.qa_history := by
  unfold load_role_config
  cases rl rn <;> rfl

/-- The role-injection dispatch never touches the qa history. -/
theorem applyRoleDispatch_qa (rl : String → Option RoleCfg)
    (rc : Option RoleCfg) (rn : Option String) (s : SessionSt) :
    (applyRoleDispatch rl rc rn s).ctx.qa_history = s.ctx.qa_history := by
  unfold applyRoleDispatch
  cases rc with
  | some r => exact inject_role_config_qa r s
  | none =>
    cases rn with
    | some n =>
      dsimp only
      split
      · exact load_role_config_qa rl n s
      · rfl
    | none => rfl

/-- Restoring saved role information never touches the qa history. -/
theorem restoreRole_qa (rl : String → Option RoleCfg) (d : RawSavedDoc)
    (s : SessionSt) :
    (restoreRole rl d s).ctx.qa_history = s.ctx.qa_history := by
  unfold restoreRole
  cases d.role_config <;> cases d.role_name <;>
    simp only [applyRoleDispatch_qa]

/-- Construction-time loading leaves a qa history that satisfies the role
invariant whenever the pre-load one does. -/
theorem qaRolesOK_load_context_from_disk (rl : String → Option RoleCfg)
    (s : SessionSt) (h : qaRolesOK s.ctx) :
    qaRolesOK (load_context_from_disk rl s).ctx := by
  unfold load_context_from_disk
  cases hd : s.disk with
  | absent => exact h
  | corrupt => exact h
  | doc d =>
    intro m hm
    rw [restoreRole_qa] at hm
    exact qaRolesOK_set_context d.context m hm

/-- A freshly constructed session satisfies the role invariant, whatever is
on disk. -/
theorem qaRolesOK_mkSession (rl : String → Option RoleCfg) (sid : String)
    (disk : DiskFile) (rc : Option RoleCfg) (rn : Option String) :
    qaRolesOK (mkSession rl sid disk rc rn).ctx := by
  unfold mkSession
  intro m hm
  rw [applyRoleDispatch_qa] at hm
  refine qaRolesOK_load_context_from_disk rl _ ?_ m hm
  intro m' hm'
  simp [default_context] at hm'

/-- `append_qa` preserves the role invariant. -/
theorem qaRolesOK_append_qa (s : SessionSt) (m : Message)
    (h : qaRolesOK s.ctx) : qaRolesOK (append_qa s m).ctx := by
  unfold append_qa
  by_cases hg : (m.role = "user" ∨ m.role = "assistant") ∧ m.content ≠ ""
  · rw [if_pos hg]
    intro m' hm'
    simp only [save_context_to_disk] at hm'
    simp only [List.mem_append, List.mem_singleton] at hm'
    rcases hm' with hm' | hm'
    · exact h m' hm'
    · subst hm'
      exact hg.1
  · rw [if_neg hg]
    exact h

/-- Every operation in `SessOp` preserves the role invariant. -/
theorem qaRolesOK_applySessOp (s : SessionSt) (op : SessOp)
    (h : qaRolesOK s.ctx) : qaRolesOK (applySessOp s op).ctx := by
  cases op with
  | setCtx raw => exact qaRolesOK_set_context raw
  | clearCtx =>
    intro m hm
    simp [applySessOp, clear_context, save_context_to_disk, default_context] at hm
  | appendQa m => exact qaRolesOK_append_qa s m h

/-- Sequences of `SessOp` preserve the role invariant. -/
theorem qaRolesOK_applySessOps (ops : List SessOp) (s : SessionSt)
    (h : qaRolesOK s.ctx) : qaRolesOK (applySessOps s ops).ctx := by
  induction ops generalizing s with
  | nil => exact h
  | cons op rest ih =>
    exact ih (applySessOp s op) (qaRolesOK_applySessOp s op h)

/-- C6 (amended).  After construction (with load-from-disk) and any sequence
of `set_context`, `clear_context` and `append_qa`, every message in
`qa_history` has role `user` or `assistant`; `append_qa` rejects any other
role and any empty content, leaving the session unchanged.  (The original
claim also quantified over `append_event`, which the counterexample shows
violates the invariant.) -/
theorem C6_qa_roles_invariant :
    (∀ (rl : String → Option RoleCfg) (sid : String) (disk : DiskFile)
        (rc : Option RoleCfg) (rn : Option String) (ops : List SessOp),
      qaRolesOK (applySessOps (mkSession rl sid disk rc rn) ops).ctx) ∧
    (∀ (s : SessionSt) (m : Message),
      ¬ ((m.role = "user" ∨ m.role = "assistant") ∧ m.content ≠ "") →
      append_qa s m = s) := by
  constructor
  · intro rl sid disk rc rn ops
    exact qaRolesOK_applySessOps ops _ (qaRolesOK_mkSession rl sid disk rc rn)
  · intro s m hm
    unfold append_qa
    rw [if_neg hm]

/-- C6 witness: the invariant instantiated on one concrete constructed
session and operation list, and one concrete rejected `append_qa`. -/
theorem C6_witness :
    qaRolesOK (applySessOps (mkSession (fun _ => none) "A" .absent none none)
        [.appendQa ⟨"user", "q"⟩]).ctx ∧
    append_qa sessC ⟨"system", "x"⟩ = sessC :=
  ⟨C6_qa_roles_invariant.1 (fun _ => none) "A" .absent none none
      [.appendQa ⟨"user", "q"⟩],
    C6_qa_roles_invariant.2 sessC ⟨"system", "x"⟩ (by decide)⟩

/-- C6 counterexample: `append_event` — one of the operations the claim
quantifies over — inserts a message whose role is neither `user` nor
`assistant` into `qa_history` of a fresh session. -/
theorem C6_counterexample :
    (append_event sessC "crawler_event" "x").ctx.qa_history
      = [⟨"crawler_event", "x"⟩] ∧
    ¬ ("crawler_event" = "user" ∨ "crawler_event" = "assistant") :=
  ⟨by decide, by decide⟩

/-- Saving leaves the file in sync with the in-memory state. -/
theorem diskSynced_save (s : SessionSt) :
    diskSynced (save_context_to_disk s) := rfl

/-- `clear_context` persists, so the file is in sync afterwards. -/
theorem diskSynced_clear_context (s : SessionSt) :
    diskSynced (clear_context s) := rfl

/-- `clear_context` resets the qa history. -/
theorem clear_context_qa (s : SessionSt) :
    (clear_context s).ctx.qa_history = [] := rfl

/-- An accepted `append_qa` appends the message and stays in sync. -/
theorem append_qa_accepted (s : SessionSt) (m : Message)
    (hm : (m.role = "user" ∨ m.role = "assistant") ∧ m.content ≠ "") :
    (append_qa s m).ctx.qa_history = s.ctx.qa_history ++ [m] ∧
    diskSynced (append_qa s m) := by
  unfold append_qa
  rw [if_pos hm]
  exact ⟨rfl, rfl⟩

/-- Folding `append_qa` over valid messages appends them in order and keeps
the file in sync. -/
theorem foldl_append_qa (msgs : List Message) (s : SessionSt)
    (hv : ∀ m ∈ msgs, (m.role = "user" ∨ m.role = "assistant") ∧ m.content ≠ "")
    (hs : diskSynced s) :
    (msgs.foldl append_qa s).ctx.qa_history = s.ctx.qa_history ++ msgs ∧
    diskSynced (msgs.foldl append_qa s) := by
  induction msgs generalizing s with
  | nil => exact ⟨by simp, hs⟩
  | cons m rest ih =>
    have hm := hv m (by simp)
    obtain ⟨h1, h2⟩ := append_qa_accepted s m hm
    obtain ⟨ha, hb⟩ := ih (append_qa s m) (fun m' hm' => hv m' (by simp [hm'])) h2
    refine ⟨?_, by simpa using hb⟩
    rw [List.foldl_cons, ha, h1]
    simp

/-- Normalizing a qa history that was saved from memory is the boolean
filter. -/
theorem filterRawQa_map_msg (l : List Message) :
    filterRawQa (l.map .msg) = l.filter validQaMsg := by
  induction l with
  | nil => rfl
  | cons m rest ih =>
    by_cases h : validQaMsg m <;>
      simp [filterRawQa, List.filterMap_cons, h, List.filter_cons] <;>
      simpa [filterRawQa] using ih

/-- `set_context` applied to a context re-read from a save filters the
in-memory qa history. -/
theorem set_context_rawOfCtx_qa (c : Ctx) :
    (set_context (rawOfCtx c)).qa_history = c.qa_history.filter validQaMsg := by
  unfold set_context rawOfCtx
  dsimp only
  exact filterRawQa_map_msg c.qa_history

/-- Constructing a session (without constructor role arguments) over the
file saved by an in-sync session reproduces the filtered qa history. -/
theorem mkSession_reload_qa (rl : String → Option RoleCfg) (sid : String)
    (s : SessionSt) (hs : diskSynced s) :
    (mkSession rl sid s.disk none none).ctx.qa_history
      = s.ctx.qa_history.filter validQaMsg := by
  unfold mkSession
  rw [applyRoleDispatch_qa]
  unfold load_context_from_disk
  rw [hs]
  dsimp only
  rw [restoreRole_qa]
  exact set_context_rawOfCtx_qa s.ctx

/-- C9.  Round-trip: from any session, `clear_context()` followed by
`append_qa` of N valid messages, then constructing a new `Session` with the
same session id (which re-reads the persistence file), yields a qa history
equal to exactly those N messages in order. -/
theorem C9_round_trip (rl : String → Option RoleCfg) (s0 : SessionSt)
    (msgs : List Message)
    (hv : ∀ m ∈ msgs, (m.role = "user" ∨ m.role = "assistant") ∧ m.content ≠ "") :
    (mkSession rl s0.session_id
        ((msgs.foldl append_qa (clear_context s0)).disk) none none).ctx.qa_history
      = msgs := by
  obtain ⟨hqa, hsync⟩ :=
    foldl_append_qa msgs (clear_context s0) hv (diskSynced_clear_context s0)
  rw [mkSession_reload_qa rl s0.session_id _ hsync, hqa, clear_context_qa]
  simp only [List.nil_append]
  exact List.filter_eq_self.mpr (fun m hm => (validQaMsg_iff m).mpr (hv m hm))

/-- `build_llm_messages` always returns at least the seven fixed context
slot messages. -/
theorem build_llm_messages_length (c : Ctx) (task : TaskM)
    (scr : List Message) : 7 ≤ (build_llm_messages c task scr).length := by
  unfold build_llm_messages
  simp only [List.append_assoc, List.length_append, List.length_cons,
    List.length_nil]
  omega

/-- The first iteration of the react loop always raises `ValueError` (when
the loop is entered at all): the 2-tuple unpacking of the flat message list
fails since the list has at least 7 elements. -/
theorem react_loop_go_first_iteration (o : KernelOracles) (task : TaskM)
    (tt : Int) (htt : 0 ≤ tt) (n iter : Nat) (sess : SessionSt)
    (scratch : List Message) :
    react_loop_go o task tt (n + 1) iter sess scratch = .error .valueError := by
  unfold react_loop_go
  rw [if_neg (by omega)]
  cases ho : o.activeO (iter + 1) with
  | some sids =>
    have hne : ¬ ((build_llm_messages (inject_active_sessions sids sess).ctx
        task scratch).length = 2) := by
      have := build_llm_messages_length (inject_active_sessions sids sess).ctx
        task scratch
      omega
    simp only [ho, hne, if_false]
  | none =>
    have hne : ¬ ((build_llm_messages sess.ctx task scratch).length = 2) := by
      have := build_llm_messages_length sess.ctx task scratch
      omega
    simp only [ho, hne, if_false]

/-- C2 (amended).  For every session (its context is normalized by
construction), every task with at least one allowed iteration and a
non-negative timeout, and arbitrary external behaviour, `execute_task` fails
on the first iteration: `messages, token_info =
self.session.build_llm_messages(...)` unpacks the returned flat list (length
at least 7, never 2) and raises `ValueError`; the task ends with status
`FAILED`, `error_message` set, and the exception re-raised.  (The original
claim said this of *every* task; the counterexample shows tasks with
`max_iterations = 0` — or a negative timeout — never enter the loop and
complete with the budget sentinel instead.) -/
theorem C2_build_messages_unpack_fails (o : KernelOracles)
    (promptO : Option String) (cfgTimeout : Int) (sess : SessionSt)
    (task : TaskM) (hiter : 1 ≤ task.max_iterations) (ht : 0 ≤ task.timeout)
    (hc : 0 ≤ cfgTimeout) :
    execute_task o promptO cfgTimeout sess task
      = ⟨.failed, none, some "too many values to unpack (expected 2)",
          .error .valueError⟩ := by
  obtain ⟨n, hn⟩ : ∃ n, task.max_iterations = n + 1 :=
    ⟨task.max_iterations - 1, by omega⟩
  have htt : (0 : Int) ≤ min (if task.timeout = 0 then cfgTimeout else task.timeout) cfgTimeout := by
    by_cases h : task.timeout = 0 <;> simp [h] <;> omega
  unfold execute_task
  cases promptO with
  | some p =>
    simp only [hn, react_loop_go_first_iteration o task _ htt n 0 _ []]
    rfl
  | none =>
    simp only [hn, react_loop_go_first_iteration o task _ htt n 0 _ []]
    rfl

/-- C2 witness: a fresh session and the concrete task `("d", 1, 300)` under
concrete oracles indeed fail with the unpacking `ValueError`. -/
theorem C2_witness :
    execute_task oraclesC none 300 sessC ⟨"d", 1, 300⟩
      = ⟨.failed, none, some "too many values to unpack (expected 2)",
          .error .valueError⟩ :=
  C2_build_messages_unpack_fails oraclesC none 300 sessC ⟨"d", 1, 300⟩
    (by decide) (by decide) (by decide)

/-- C2 counterexample to the universal claim: a task with
`max_iterations = 0` never enters the loop, so `execute_task` returns the
budget sentinel with status `COMPLETED` — not `FAILED` — and no exception. -/
theorem C2_counterexample :
    execute_task oraclesC none 300 sessC ⟨"d", 0, 300⟩
      = ⟨.completed, some BUDGET_SENTINEL, none, .ok BUDGET_SENTINEL⟩ := by
  rfl

/-- An empty action payload parses to the empty tuple. -/
theorem parse_action_json_empty (loads : String → Option JValue) :
    parse_action_json loads "" = some ("", []) := rfl

/-- A parsed non-empty tool name forces a non-empty raw payload. -/
theorem parse_action_name_ne_empty {loads : String → Option JValue}
    {la name : String} {args : List (String × JValue)}
    (hpa : parse_action_json loads la = some (name, args)) (hname : name ≠ "") :
    la ≠ "" := by
  intro h
  subst h
  rw [parse_action_json_empty] at hpa
  cases hpa
  exact hname rfl

/-- An empty communication payload parses to empty target/message. -/
theorem parse_communication_json_empty (loads : String → Option JValue) :
    parse_communication_json loads "" = ("", "") := rfl

/-- A parsed non-empty communication target forces a non-empty raw
payload. -/
theorem parse_comm_target_ne_empty {loads : String → Option JValue}
    {lc : String} (h : (parse_communication_json loads lc).1 ≠ "") :
    lc ≠ "" := by
  intro hl
  subst hl
  rw [parse_communication_json_empty] at h
  exact h rfl

/-- Serialized JSON objects are never the empty string. -/
theorem dumpJ_obj_ne_empty (f : List (String × JValue)) :
    dumpJ (.obj f) ≠ "" := by
  unfold dumpJ
  intro h
  have h2 : ("\x7b".length = 0 ∧ (dumpJFields f).length = 0) ∧ "\x7d".length = 0 := by
    simpa [String.length_append] using congrArg String.length h
  exact absurd h2.2 (by decide)

/-- C5 (amended).  Whenever `_parse_action_json` completes (i.e. the action
text is absent, not valid JSON, or a well-formed `{tool, arguments:
object}`), the dispatch preserves the priority final_answer > action >
communication: a captured final answer is returned with no tool call and no
publish; otherwise a valid action invokes exactly that tool with no publish;
otherwise a valid communication is published.  (The original claim's
unrestricted form fails when the action text parses as JSON of the wrong
shape: `_parse_action_json` then returns `None`, the unpacking raises
`TypeError` and no outcome at all is dispatched — see the
counterexample.) -/
theorem C5_dispatch_priority (loads : String → Option JValue)
    (toolO : String → List (String × JValue) → Except String String)
    (pubO : String → String → Except String Nat)
    (sess : SessionSt) (scratch : List Message) (la lc lf resp : String)
    (hp : parse_action_json loads la ≠ none) :
    (lf ≠ "" →
      handle_react_iteration_case loads toolO pubO sess scratch la lc lf resp
        = .ok ⟨some (pyStrip lf), append_qa sess ⟨"assistant", pyStrip lf⟩,
            scratch, [], []⟩) ∧
    (∀ name args, lf = "" → parse_action_json loads la = some (name, args) →
      name ≠ "" →
      ∃ d, handle_react_iteration_case loads toolO pubO sess scratch la lc lf resp
          = .ok d ∧
        d.ret = none ∧ d.toolCalls = [(name, args)] ∧ d.publishes = []) ∧
    (lf = "" →
      (∀ name args, parse_action_json loads la = some (name, args) → name = "") →
      (parse_communication_json loads lc).1 ≠ "" →
      ∃ d, handle_react_iteration_case loads toolO pubO sess scratch la lc lf resp
          = .ok d ∧
        d.ret = none ∧
        d.publishes = [((parse_communication_json loads lc).1,
            (parse_communication_json loads lc).2)] ∧
        d.toolCalls = []) := by
  obtain ⟨pr, hpr⟩ : ∃ pr, parse_action_json loads la = some pr := by
    cases hpp : parse_action_json loads la
    · exact absurd hpp hp
    · exact ⟨_, rfl⟩
  obtain ⟨name0, args0⟩ := pr
  refine ⟨?_, ?_, ?_⟩
  · intro hlf
    unfold handle_react_iteration_case
    rw [hpr]
    dsimp only
    rw [if_pos hlf]
  · intro name args hlf hpa hname
    have hinj : name0 = name ∧ args0 = args := by
      rw [hpr] at hpa
      cases hpa
      exact ⟨rfl, rfl⟩
    obtain ⟨h1, h2⟩ := hinj
    subst h1
    subst h2
    have hla : la ≠ "" := parse_action_name_ne_empty hpa hname
    unfold handle_react_iteration_case
    rw [hpr]
    dsimp only
    rw [if_neg (by simp [hlf]), if_pos ⟨hname, hla⟩]
    exact ⟨_, rfl, rfl, rfl, rfl⟩
  · intro hlf hall hct
    have hname0 : name0 = "" := hall name0 args0 hpr
    have hlc : lc ≠ "" := parse_comm_target_ne_empty hct
    unfold handle_react_iteration_case
    rw [hpr]
    dsimp only
    rw [if_neg (by simp [hlf]), if_neg (by simp [hname0]), if_pos ⟨hct, hlc⟩]
    exact ⟨_, rfl, rfl, rfl, rfl⟩

/-- C5 witness: with an empty action/communication and the captured final
answer `"done"`, the dispatch returns the final answer. -/
theorem C5_witness :
    handle_react_iteration_case (fun _ => none) toolOk pubOk sessC []
        "" "" "done" "r"
      = .ok ⟨some (pyStrip "done"), append_qa sessC ⟨"assistant", pyStrip "done"⟩,
          [], [], []⟩ :=
  (C5_dispatch_priority (fun _ => none) toolOk pubOk sessC [] "" "" "done" "r"
    (by rw [parse_action_json_empty]; exact fun h => Option.noConfusion h)).1
    (by decide)

/-- C5 counterexample to the claim as stated: a turn in which the parser
captured both a final answer (`"done"`) and an action section (`"[1, 2]"`,
JSON of the wrong shape).  The claim requires the final answer to win and be
returned; instead the dispatch raises `TypeError` and returns nothing. -/
theorem C5_counterexample :
    handle_react_iteration_case loadsC1 toolOk pubOk sessC []
        "[1, 2]" "" "done" "r" = .error .typeError ∧
    ("done" : String) ≠ "" :=
  ⟨rfl, by decide⟩

/-- C8 (amended).  When a turn dispatches as an action (valid
`{tool, arguments}` payload, no final answer), the `Action:`/`Observation:`
entries go to the scratchpad only; however the dispatch step also appends
the raw tool-call JSON to `qa_history`, and on tool failure a further
corrective assistant message — so `qa_history` is *not* unchanged.  No
publish happens and the loop continues. -/
theorem C8_action_frame (loads : String → Option JValue)
    (toolO : String → List (String × JValue) → Except String String)
    (pubO : String → String → Except String Nat)
    (sess : SessionSt) (scratch : List Message) (la lc resp name : String)
    (args : List (String × JValue))
    (hpa : parse_action_json loads la = some (name, args)) (hname : name ≠ "") :
    ∃ d, handle_react_iteration_case loads toolO pubO sess scratch la lc "" resp
        = .ok d ∧
      d.ret = none ∧
      d.scratch = scratch ++
        [(⟨"assistant", "Action: " ++
            dumpJ (.obj [("tool", .str name), ("arguments", .obj args)])⟩ : Message),
         ⟨"user", "Observation: " ++ obsOf (toolO name args)⟩] ∧
      d.sess.ctx.qa_history = sess.ctx.qa_history ++
        [(⟨"assistant",
            dumpJ (.obj [("tool", .str name), ("arguments", .obj args)])⟩ : Message)] ++
        (match toolO name args with
          | .ok _ => []
          | .error _ => [(⟨"assistant", FAIL_NOTICE⟩ : Message)]) ∧
      d.publishes = [] := by
  have hla : la ≠ "" := parse_action_name_ne_empty hpa hname
  unfold handle_react_iteration_case
  rw [hpa]
  dsimp only
  rw [if_neg (by simp), if_pos ⟨hname, hla⟩]
  unfold run_tool_and_record
  have hq1 := append_qa_accepted sess
    ⟨"assistant", dumpJ (.obj [("tool", .str name), ("arguments", .obj args)])⟩
    ⟨Or.inr rfl, dumpJ_obj_ne_empty _⟩
  cases hto : toolO name args with
  | ok obs =>
    refine ⟨_, rfl, rfl, ?_, ?_, rfl⟩
    · simp [hto, obsOf]
    · simp only [hto]
      rw [hq1.1]
      simp
  | error e =>
    refine ⟨_, rfl, rfl, ?_, ?_, rfl⟩
    · simp [hto, obsOf]
    · simp only [hto]
      have hq2 := append_qa_accepted
        (append_qa sess
          ⟨"assistant", dumpJ (.obj [("tool", .str name), ("arguments", .obj args)])⟩)
        ⟨"assistant", FAIL_NOTICE⟩ ⟨Or.inr rfl, by decide⟩
      rw [hq2.1, hq1.1]

/-- C8 witness: the frame property applied to the concrete action
`{"tool": "t", "arguments": {"x": 1}}` under a succeeding tool oracle. -/
theorem C8_witness :
    ∃ d, handle_react_iteration_case loadsAct toolOk pubOk sessC [] actRaw "" "" "r"
        = .ok d ∧
      d.ret = none ∧
      d.scratch = [] ++
        [(⟨"assistant", "Action: " ++
            dumpJ (.obj [("tool", .str "t"), ("arguments", .obj [("x", .num 1)])])⟩ : Message),
         ⟨"user", "Observation: " ++ obsOf (toolOk "t" [("x", .num 1)])⟩] ∧
      d.sess.ctx.qa_history = sessC.ctx.qa_history ++
        [(⟨"assistant",
            dumpJ (.obj [("tool", .str "t"), ("arguments", .obj [("x", .num 1)])])⟩ : Message)] ++
        (match toolOk "t" [("x", .num 1)] with
          | .ok _ => []
          | .error _ => [(⟨"assistant", FAIL_NOTICE⟩ : Message)]) ∧
      d.publishes = [] :=
  C8_action_frame loadsAct toolOk pubOk sessC [] actRaw "" "r" "t"
    [("x", .num 1)] rfl (by decide)

/-- C8 counterexample to the claim as stated: dispatching the valid action
`{"tool": "t", "arguments": {"x": 1}}` on a fresh session (empty
`qa_history`, successful tool call) leaves `qa_history` holding the
tool-call record — the whole action-dispatch step does change
`qa_history`. -/
theorem C8_counterexample :
    sessC.ctx.qa_history = [] ∧
    (handle_react_iteration_case loadsAct toolOk pubOk sessC [] actRaw "" "" "r").map
        (fun d => d.sess.ctx.qa_history)
      = .ok [⟨"assistant",
          dumpJ (.obj [("tool", .str "t"), ("arguments", .obj [("x", .num 1)])])⟩] :=
  ⟨rfl, rfl⟩

/-- With a fresh cache, `call_tool` never refreshes: it resolves the tool in
the cache (reporting not-found without contacting any provider), checks the
owning provider's session, and otherwise enters the retry loop. -/
theorem call_tool_fresh (now : Int) (refreshO : List (String × CachedToolM))
    (callO : Nat → Except String String) (st : MCPState) (tool_name : String)
    (retries : Nat) (hfresh : is_cache_valid now st = true)
    (hsess : st.sessions ≠ []) :
    call_tool now refreshO callO st tool_name none retries =
      match st.tool_cache.lookup tool_name with
      | none => ⟨.error (.toolNotFound tool_name), 0, 0⟩
      | some ct =>
        if ct.server_name ∈ st.sessions then execute_tool_with_retry callO retries
        else ⟨.error (.providerUnavailable ct.server_name), 0, 0⟩ := by
  unfold call_tool
  rw [if_neg hsess]
  simp only [hfresh, if_true]

/-- A first successful provider attempt ends the retry loop after exactly
one attempt and no sleep. -/
theorem execute_tool_with_retry_first_ok (callO : Nat → Except String String)
    (r : String) (h0 : callO 0 = .ok r) :
    execute_tool_with_retry callO 2 = ⟨.ok r, 1, 0⟩ := by
  simp [execute_tool_with_retry, retryGo, h0]

/-- With `retries = 2` and both provider attempts failing, the retry loop
makes exactly two attempts total, sleeps once between them, and surfaces the
second (last) error. -/
theorem execute_tool_with_retry_two_fail (callO : Nat → Except String String)
    (e0 e1 : String) (h0 : callO 0 = .error e0) (h1 : callO 1 = .error e1) :
    execute_tool_with_retry callO 2 = ⟨.error (.providerError e1), 2, 1⟩ := by
  simp [execute_tool_with_retry, retryGo, h0, h1]

/-- C7 (amended).  `CallTool(name, args)` with a fresh (non-stale) cache and
at least one initialized provider session: an absent name fails with the
tool-not-found error and zero provider attempts; a disconnected owning
provider fails with the provider-unavailable error and zero attempts;
otherwise the underlying call is attempted at most 2 times in total — i.e.
at most **1** retry beyond the first attempt, the `retries=2` default
counting total attempts — with a single fixed-delay sleep between the two
attempts, and the last provider error is surfaced when both fail.  (The
original claim said "up to 2 retries beyond the first attempt", i.e. 3
attempts; the counterexample shows only 2 attempts happen.) -/
theorem C7_call_tool_contract (now : Int)
    (refreshO : List (String × CachedToolM))
    (callO : Nat → Except String String) (st : MCPState) (tool_name : String)
    (hfresh : is_cache_valid now st = true) (hsess : st.sessions ≠ []) :
    (st.tool_cache.lookup tool_name = none →
      call_tool now refreshO callO st tool_name none 2
        = ⟨.error (.toolNotFound tool_name), 0, 0⟩) ∧
    (∀ ct, st.tool_cache.lookup tool_name = some ct →
      ct.server_name ∉ st.sessions →
      call_tool now refreshO callO st tool_name none 2
        = ⟨.error (.providerUnavailable ct.server_name), 0, 0⟩) ∧
    (∀ ct r, st.tool_cache.lookup tool_name = some ct →
      ct.server_name ∈ st.sessions → callO 0 = .ok r →
      call_tool now refreshO callO st tool_name none 2 = ⟨.ok r, 1, 0⟩) ∧
    (∀ ct e0 e1, st.tool_cache.lookup tool_name = some ct →
      ct.server_name ∈ st.sessions → callO 0 = .error e0 →
      callO 1 = .error e1 →
      call_tool now refreshO callO st tool_name none 2
        = ⟨.error (.providerError e1), 2, 1⟩) := by
  have hbase := call_tool_fresh now refreshO callO st tool_name 2 hfresh hsess
  refine ⟨?_, ?_, ?_, ?_⟩
  · intro h
    rw [hbase, h]
  · intro ct hct habs
    rw [hbase, hct]
    simp only [habs, if_false]
  · intro ct r hct hmem h0
    rw [hbase, hct]
    simp only [hmem, if_true]
    exact execute_tool_with_retry_first_ok callO r h0
  · intro ct e0 e1 hct hmem h0 h1
    rw [hbase, hct]
    simp only [hmem, if_true]
    exact execute_tool_with_retry_two_fail callO e0 e1 h0 h1

/-- C7 witness: the contract's all-attempts-fail case evaluated on the
concrete gateway state `mcpC` and the always-failing provider oracle. -/
theorem C7_witness :
    call_tool 200 [] failCallO mcpC "echo" none 2
      = ⟨.error (.providerError "1"), 2, 1⟩ :=
  (C7_call_tool_contract 200 [] failCallO mcpC "echo" (by decide)
      (by decide)).2.2.2 ⟨"echo", "d", "srv"⟩ "0" "1" rfl (by decide) rfl rfl

/-- C7 counterexample to the claim's retry count: with every provider
attempt failing, the call makes 2 attempts in total, not the 3 (= first
attempt + 2 retries) the claim asserts. -/
theorem C7_counterexample :
    (call_tool 200 [] failCallO mcpC "echo" none 2).attempts = 2 ∧
    ¬ ((call_tool 200 [] failCallO mcpC "echo" none 2).attempts = 1 + 2) :=
  ⟨rfl, by decide⟩

/-- C9 witness: the round trip evaluated on a fresh session and two concrete
messages. -/
theorem C9_witness :
    (mkSession (fun _ => none) sessC.session_id
        (([(⟨"user", "hi"⟩ : Message), ⟨"assistant", "yo"⟩].foldl append_qa
            (clear_context sessC)).disk) none none).ctx.qa_history
      = [(⟨"user", "hi"⟩ : Message), ⟨"assistant", "yo"⟩] :=
  C9_round_trip (fun _ => none) sessC
    [(⟨"user", "hi"⟩ : Message), ⟨"assistant", "yo"⟩] (by decide)

end StockCli
